import Mathlib

/-!
Shallow embedding of the Harvis OpenClaw Bridge
(src/python_back_end/plugins/openclaw/bridge.py and
src/python_back_end/plugins/core/job_schema.py, events.py).

Python dicts are modelled as insertion-ordered association lists,
`datetime.utcnow()` as an explicit `now : Nat` argument (seconds),
WebSocket channels as opaque `Nat` identities, and WebSocket send
failures as a boolean oracle `fails : Channel → Bool`.
-/

/-- Opaque identity of a client WebSocket channel. -/
abbrev Channel := Nat

/-- `dlookup m k` is Python `m[k]` / `m.get(k)` on an insertion-ordered dict. -/
def dlookup {α : Type} : List (String × α) → String → Option α
  | [], _ => none
  | (k, v) :: rest, key => if k = key then some v else dlookup rest key

/-- Python `k in m`. -/
def dcontains {α : Type} (m : List (String × α)) (k : String) : Bool :=
  (dlookup m k).isSome

/-- Python `m[k] = v`: update in place if present, else append (dict order). -/
def dinsert {α : Type} : List (String × α) → String → α → List (String × α)
  | [], key, v => [(key, v)]
  | (k, w) :: rest, key, v =>
    if k = key then (key, v) :: rest else (k, w) :: dinsert rest key v

/-- Python `del m[k]`: drop the first entry with that key. -/
def derase {α : Type} : List (String × α) → String → List (String × α)
  | [], _ => []
  | (k, w) :: rest, key => if k = key then rest else (k, w) :: derase rest key

/-- The keys of an association list, in order. -/
def dkeys {α : Type} (m : List (String × α)) : List String :=
  m.map Prod.fst

/-- JobStatus enum (job_schema.py). -/
inductive JobStatus where
  | pending
  | queued
  | vm_booting
  | running
  | paused
  | completed
  | failed
  | cancelled
  | timeout
deriving DecidableEq, Repr

/-- A step of a job's execution plan (job_schema.py `JobStep`); only the
fields the Bridge reads are carried. -/
structure JobStep where
  index : Nat
  description : String
  status : String
deriving DecidableEq, Repr

/-- The Job model (job_schema.py `Job`); datetimes are seconds as `Nat`,
opaque payloads as `String`. -/
structure Job where
  id : String
  user_id : Nat
  task_prompt : String
  vm_id : Option String
  policy_profile : String
  status : JobStatus
  steps : List JobStep
  current_step : Nat
  result : Option String
  artifacts : List String
  error_message : Option String
  error_code : Option String
  created_at : Nat
  started_at : Option Nat
  completed_at : Option Nat
  max_runtime_minutes : Nat
deriving DecidableEq, Repr

/-- `Job.is_active` (job_schema.py): status in
`[QUEUED, VM_BOOTING, RUNNING, PAUSED]`. -/
def Job.is_active (j : Job) : Bool :=
  decide (j.status = JobStatus.queued) || decide (j.status = JobStatus.vm_booting) ||
    decide (j.status = JobStatus.running) || decide (j.status = JobStatus.paused)

/-- The terminal statuses named by the spec. -/
def JobStatus.isTerminal : JobStatus → Bool
  | JobStatus.completed => true
  | JobStatus.failed => true
  | JobStatus.cancelled => true
  | JobStatus.timeout => true
  | _ => false

/-- Python true division, made fallible exactly where Python raises
`ZeroDivisionError`. -/
def pydiv (a b : ℚ) : Except String ℚ :=
  if b = 0 then Except.error "ZeroDivisionError" else Except.ok (a / b)

/-- `Job.progress_percentage` (job_schema.py lines 140-146):
`0.0` when `steps` is empty, else `completed / len(steps) * 100`
(float arithmetic rendered in ℚ). -/
def Job.progress_percentage (j : Job) : Except String ℚ :=
  if j.steps = [] then Except.ok 0
  else
    (pydiv ((j.steps.countP (fun s => s.status = "completed") : ℚ)) (j.steps.length : ℚ)).map
      (fun q => q * 100)

/-- A connected VM instance (bridge.py `VMConnection`). -/
structure VMConnection where
  instance_id : String
  bridge_token : String
  user_id : Nat
  connected_at : Nat
  last_ping : Nat
  status : String
  current_task_id : Option String
deriving DecidableEq, Repr

/-- `VMConnection.is_alive` (bridge.py lines 57-62): status must be exactly
`"online"` and the last ping at most 60 s old. -/
def VMConnection.is_alive (c : VMConnection) (now : Nat) : Bool :=
  if c.status ≠ "online" then false
  else (now - c.last_ping) < 60

/-- EventType enum (events.py). -/
inductive EventType where
  | job_queued | job_started | job_completed | job_cancelled | job_failed
  | vm_booting | vm_ready | vm_error | vm_shutdown
  | task_started | task_step_started | task_step_completed | task_step_failed
  | log | stdout | stderr
  | screenshot_captured | video_frame
  | tool_called | tool_completed | tool_error
  | needs_approval | approval_granted | approval_denied
  | needs_context | context_provided
deriving DecidableEq, Repr

/-- Event envelope (events.py `Event`); the Bridge reads only `type` and
`job_id`, payloads are forwarded opaquely. -/
structure Event where
  type : EventType
  job_id : String
deriving DecidableEq, Repr

/-- `create_event` (events.py helper used by bridge.py). -/
def create_event (t : EventType) (jobId : String) : Event :=
  { type := t, job_id := jobId }

/-- Result part of a `task_complete` frame. -/
structure TaskResult where
  result : Option String
  artifacts : List String
deriving DecidableEq, Repr

/-- Error part of a `task_failed` frame. -/
structure TaskError where
  message : Option String
  code : Option String
deriving DecidableEq, Repr

/-- Inbound worker frames dispatched by `_process_vm_message`. -/
inductive InFrame where
  | pong
  | event (e : Event)
  | task_complete (taskId : String) (result : TaskResult)
  | task_failed (taskId : String) (error : TaskError)
  | needs_approval (requestId : String) (jobId : String)
  | needs_context (requestId : String) (jobId : String)
  | unknown (t : String)
deriving DecidableEq, Repr

/-- Outbound frames the Bridge sends to workers. -/
inductive OutFrame where
  | connected (instanceId : String)
  | ping
  | task_start (taskId : String)
  | task_cancel (taskId : String) (reason : String)
  | approval_response (requestId : String) (approved : Bool) (reason : Option String)
  | context_response (requestId : String) (response : String) (attachments : List String)
deriving DecidableEq, Repr

/-- The mutable registries of `OpenClawBridge`. -/
structure BridgeState where
  connections : List (String × VMConnection)
  jobs : List (String × Job)
  job_queues : List (String × List Job)
  event_subscribers : List (String × List Channel)
  instance_tasks : List (String × String)
deriving DecidableEq, Repr

/-- `OpenClawBridge.subscribe_to_job` (bridge.py lines 556-561). -/
def subscribe_to_job (st : BridgeState) (jobId : String) (ch : Channel) : BridgeState :=
  let subs := (dlookup st.event_subscribers jobId).getD []
  let subs' := if ch ∈ subs then subs else subs ++ [ch]
  { st with event_subscribers := dinsert st.event_subscribers jobId subs' }

/-- `OpenClawBridge.unsubscribe_from_job` (bridge.py lines 563-569):
discard the channel; delete the key when the set becomes empty. -/
def unsubscribe_from_job (st : BridgeState) (jobId : String) (ch : Channel) : BridgeState :=
  match dlookup st.event_subscribers jobId with
  | none => st
  | some subs =>
    let subs' := subs.filter (fun c => c ≠ ch)
    if subs' = [] then
      { st with event_subscribers := derase st.event_subscribers jobId }
    else
      { st with event_subscribers := dinsert st.event_subscribers jobId subs' }

/-- `OpenClawBridge._broadcast_event` (bridge.py lines 571-587): send to every
subscriber of the job; sends that raise mark the subscriber dead, and dead
subscribers are discarded afterwards. Returns the channels actually
delivered to. The key is kept even when every subscriber dies. -/
def broadcast_event (st : BridgeState) (jobId : String) (_e : Event)
    (fails : Channel → Bool) : BridgeState × List Channel :=
  match dlookup st.event_subscribers jobId with
  | none => (st, [])
  | some subs =>
    let delivered := subs.filter (fun ch => ¬ fails ch)
    ({ st with event_subscribers := dinsert st.event_subscribers jobId delivered },
      delivered)

/-- `OpenClawBridge.disconnect_vm` (bridge.py lines 187-223): drop the
connection, then fail its active task (if any) with
"VM disconnected unexpectedly" and release the reverse index entry. -/
def disconnect_vm (st : BridgeState) (instanceId : String) (now : Nat)
    (fails : Channel → Bool) : BridgeState × List Event :=
  if ¬ dcontains st.connections instanceId then (st, [])
  else
    let st1 := { st with connections := derase st.connections instanceId }
    match dlookup st1.instance_tasks instanceId with
    | none => (st1, [])
    | some taskId =>
      let step :=
        match dlookup st1.jobs taskId with
        | none => (st1, [])
        | some job =>
          if job.is_active then
            let job' := { job with
              status := JobStatus.failed
              error_message := some "VM disconnected unexpectedly"
              completed_at := some now }
            let stA := { st1 with jobs := dinsert st1.jobs taskId job' }
            let e := create_event EventType.job_failed taskId
            ((broadcast_event stA taskId e fails).1, [e])
          else (st1, [])
      ({ step.1 with instance_tasks := derase step.1.instance_tasks instanceId },
        step.2)

/-- `OpenClawBridge.connect_vm` (bridge.py lines 146-185): evict any existing
connection with the same instance id (via `disconnect_vm`), then register the
new connection and send the `connected` welcome frame. -/
def connect_vm (st : BridgeState) (instanceId bridgeToken : String)
    (userId : Nat) (now : Nat) (fails : Channel → Bool) :
    BridgeState × List (String × OutFrame) × List Event :=
  let step :=
    if dcontains st.connections instanceId then
      disconnect_vm st instanceId now fails
    else (st, [])
  let conn : VMConnection :=
    { instance_id := instanceId
      bridge_token := bridgeToken
      user_id := userId
      connected_at := now
      last_ping := now
      status := "online"
      current_task_id := none }
  ({ step.1 with connections := dinsert step.1.connections instanceId conn },
    [(instanceId, OutFrame.connected instanceId)], step.2)

/-- Scan of `_find_available_instance` over the connection dict in order. -/
def find_available_aux (tasks : List (String × String)) :
    List (String × VMConnection) → Option String
  | [] => none
  | (iid, conn) :: rest =>
    if conn.status = "online" ∧ dcontains tasks iid = false then some iid
    else find_available_aux tasks rest

/-- `OpenClawBridge._find_available_instance` (bridge.py lines 358-363):
first connection that is online and has no reverse-index entry. -/
def find_available_instance (st : BridgeState) : Option String :=
  find_available_aux st.instance_tasks st.connections

/-- `OpenClawBridge.submit_job` (bridge.py lines 299-356): store the job as
queued, pick an instance (preferred or first available), and either raise
"No VM instances available" or record the assignment, create a fresh queue,
and emit `JOB_QUEUED`. The `_try_start_job` coroutine is scheduled as a
separate task, not run inside `submit_job`. -/
def submit_job (st : BridgeState) (job : Job) (instanceId : Option String)
    (fails : Channel → Bool) :
    BridgeState × Except String String × List Event :=
  let job0 := { job with status := JobStatus.queued }
  let st1 := { st with jobs := dinsert st.jobs job.id job0 }
  let iid :=
    match instanceId with
    | some i => some i
    | none => find_available_instance st1
  match iid with
  | none => (st1, Except.error "No VM instances available", [])
  | some i =>
    let job1 := { job0 with vm_id := some i }
    let st2 := { st1 with jobs := dinsert st1.jobs job.id job1 }
    let st3 := { st2 with job_queues := dinsert st2.job_queues job.id [job1] }
    let e := create_event EventType.job_queued job.id
    ((broadcast_event st3 job.id e fails).1, Except.ok job.id, [e])

/-- `OpenClawBridge._try_start_job` (bridge.py lines 365-418). -/
def try_start_job (st : BridgeState) (jobId : String) (now : Nat)
    (fails : Channel → Bool) :
    BridgeState × List (String × OutFrame) × List Event :=
  match dlookup st.jobs jobId with
  | none => (st, [], [])
  | some job =>
    if job.status ≠ JobStatus.queued then (st, [], [])
    else
      match job.vm_id with
      | none => (st, [], [])
      | some vid =>
        match dlookup st.connections vid with
        | none => (st, [], [])
        | some conn =>
          let job' := { job with
            status := JobStatus.running
            started_at := some now }
          let conn' := { conn with
            current_task_id := some jobId
            status := "busy" }
          let st1 := { st with
            jobs := dinsert st.jobs jobId job'
            instance_tasks := dinsert st.instance_tasks vid jobId
            connections := dinsert st.connections vid conn' }
          let e := create_event EventType.job_started jobId
          ((broadcast_event st1 jobId e fails).1,
            [(vid, OutFrame.task_start jobId)], [e])

/-- `OpenClawBridge.cancel_job` (bridge.py lines 420-464): no-op returning
False unless the job exists and is active; otherwise send `task_cancel`,
mark the job cancelled, release the reverse index and the connection, and
emit `JOB_CANCELLED`. -/
def cancel_job (st : BridgeState) (jobId reason : String) (now : Nat)
    (fails : Channel → Bool) :
    BridgeState × Bool × List (String × OutFrame) × List Event :=
  match dlookup st.jobs jobId with
  | none => (st, false, [], [])
  | some job =>
    if ¬ job.is_active then (st, false, [], [])
    else
      let frames :=
        match job.vm_id with
        | some v =>
          if dcontains st.connections v then
            [(v, OutFrame.task_cancel jobId reason)]
          else []
        | none => []
      let job' := { job with
        status := JobStatus.cancelled
        completed_at := some now }
      let st1 := { st with jobs := dinsert st.jobs jobId job' }
      let st2 :=
        match job.vm_id with
        | some v =>
          if dcontains st1.instance_tasks v then
            let stA := { st1 with instance_tasks := derase st1.instance_tasks v }
            match dlookup stA.connections v with
            | some conn =>
              let conn' := { conn with status := "online", current_task_id := none }
              { stA with connections := dinsert stA.connections v conn' }
            | none => stA
          else st1
        | none => st1
      let e := create_event EventType.job_cancelled jobId
      ((broadcast_event st2 jobId e fails).1, true, frames, [e])

/-- `OpenClawBridge._handle_task_complete` (bridge.py lines 466-508): for any
known task id — with no guard on the job's current status — set the job
completed, store result and artifacts, release the instance and emit
`JOB_COMPLETED`. -/
def handle_task_complete (st : BridgeState) (instanceId taskId : String)
    (result : TaskResult) (now : Nat) (fails : Channel → Bool) :
    BridgeState × List Event :=
  match dlookup st.jobs taskId with
  | none => (st, [])
  | some job =>
    let job' := { job with
      status := JobStatus.completed
      completed_at := some now
      result := result.result
      artifacts := result.artifacts }
    let st1 := { st with jobs := dinsert st.jobs taskId job' }
    let st2 :=
      if dcontains st1.instance_tasks instanceId then
        { st1 with instance_tasks := derase st1.instance_tasks instanceId }
      else st1
    let st3 :=
      match dlookup st2.connections instanceId with
      | some conn =>
        let conn' := { conn with status := "online", current_task_id := none }
        { st2 with connections := dinsert st2.connections instanceId conn' }
      | none => st2
    let e := create_event EventType.job_completed taskId
    ((broadcast_event st3 taskId e fails).1, [e])

/-- `OpenClawBridge._handle_task_failed` (bridge.py lines 510-550): symmetric
to task completion, again with no guard on the job's current status. -/
def handle_task_failed (st : BridgeState) (instanceId taskId : String)
    (error : TaskError) (now : Nat) (fails : Channel → Bool) :
    BridgeState × List Event :=
  match dlookup st.jobs taskId with
  | none => (st, [])
  | some job =>
    let job' := { job with
      status := JobStatus.failed
      completed_at := some now
      error_message := error.message
      error_code := error.code }
    let st1 := { st with jobs := dinsert st.jobs taskId job' }
    let st2 :=
      if dcontains st1.instance_tasks instanceId then
        { st1 with instance_tasks := derase st1.instance_tasks instanceId }
      else st1
    let st3 :=
      match dlookup st2.connections instanceId with
      | some conn =>
        let conn' := { conn with status := "online", current_task_id := none }
        { st2 with connections := dinsert st2.connections instanceId conn' }
      | none => st2
    let e := create_event EventType.job_failed taskId
    ((broadcast_event st3 taskId e fails).1, [e])

/-- `OpenClawBridge._handle_approval_request` (bridge.py lines 593-615):
broadcast `NEEDS_APPROVAL`; no pending entry is recorded anywhere. -/
def handle_approval_request (st : BridgeState) (jobId : String)
    (fails : Channel → Bool) : BridgeState × List Event :=
  let e := create_event EventType.needs_approval jobId
  ((broadcast_event st jobId e fails).1, [e])

/-- `OpenClawBridge._handle_context_request` (bridge.py lines 662-683):
broadcast `NEEDS_CONTEXT`; no pending entry is recorded anywhere. -/
def handle_context_request (st : BridgeState) (jobId : String)
    (fails : Channel → Bool) : BridgeState × List Event :=
  let e := create_event EventType.needs_context jobId
  ((broadcast_event st jobId e fails).1, [e])

/-- `OpenClawBridge._process_vm_message` (bridge.py lines 238-272): dispatch
on the frame's `type`. Only `pong` touches `last_ping`. -/
def process_vm_message (st : BridgeState) (instanceId : String)
    (frame : InFrame) (now : Nat) (fails : Channel → Bool) :
    BridgeState × List Event :=
  match frame with
  | InFrame.pong =>
    match dlookup st.connections instanceId with
    | some conn =>
      let conn' := { conn with last_ping := now }
      ({ st with connections := dinsert st.connections instanceId conn' }, [])
    | none => (st, [])
  | InFrame.event e =>
    ((broadcast_event st e.job_id e fails).1, [e])
  | InFrame.task_complete tid r =>
    handle_task_complete st instanceId tid r now fails
  | InFrame.task_failed tid err =>
    handle_task_failed st instanceId tid err now fails
  | InFrame.needs_approval _ jid => handle_approval_request st jid fails
  | InFrame.needs_context _ jid => handle_context_request st jid fails
  | InFrame.unknown _ => (st, [])

/-- The scan inside `submit_approval_response` / `submit_context_response`:
first job (in dict order) whose `vm_id` is set and currently connected. The
`request_id` argument plays no part in the scan. -/
def find_job_with_vm (conns : List (String × VMConnection)) :
    List (String × Job) → Option (String × String)
  | [] => none
  | (jid, job) :: rest =>
    match job.vm_id with
    | some v =>
      if dcontains conns v then some (jid, v)
      else find_job_with_vm conns rest
    | none => find_job_with_vm conns rest

/-- `OpenClawBridge.submit_approval_response` (bridge.py lines 617-656):
forward the response to the first job with a connected VM — whatever the
`request_id` — emit APPROVAL_GRANTED/DENIED there, and return True; return
False only when no job has a connected VM. -/
def submit_approval_response (st : BridgeState) (requestId : String)
    (approved : Bool) (reason : Option String) (fails : Channel → Bool) :
    BridgeState × Bool × List (String × OutFrame) × List Event :=
  match find_job_with_vm st.connections st.jobs with
  | none => (st, false, [], [])
  | some (jid, v) =>
    let e := create_event
      (if approved then EventType.approval_granted else EventType.approval_denied)
      jid
    ((broadcast_event st jid e fails).1, true,
      [(v, OutFrame.approval_response requestId approved reason)], [e])

/-- `OpenClawBridge.submit_context_response` (bridge.py lines 685-724): same
scan as `submit_approval_response`, forwarding a `context_response` frame and
emitting `CONTEXT_PROVIDED`. -/
def submit_context_response (st : BridgeState) (requestId response : String)
    (attachments : List String) (fails : Channel → Bool) :
    BridgeState × Bool × List (String × OutFrame) × List Event :=
  match find_job_with_vm st.connections st.jobs with
  | none => (st, false, [], [])
  | some (jid, v) =>
    let e := create_event EventType.context_provided jid
    ((broadcast_event st jid e fails).1, true,
      [(v, OutFrame.context_response requestId response attachments)], [e])

/-! ### Association-list lemmas -/

theorem dlookup_dinsert_self {α : Type} (m : List (String × α)) (k : String) (v : α) :
    dlookup (dinsert m k v) k = some v := by
  induction m with
  | nil => simp [dinsert, dlookup]
  | cons hd tl ih =>
    obtain ⟨k0, w⟩ := hd
    by_cases h : k0 = k
    · simp [dinsert, h, dlookup]
    · simp [dinsert, h, dlookup, ih]

theorem dlookup_dinsert_ne {α : Type} (m : List (String × α)) (k k' : String) (v : α)
    (h : k ≠ k') : dlookup (dinsert m k v) k' = dlookup m k' := by
  induction m with
  | nil => simp [dinsert, dlookup, h]
  | cons hd tl ih =>
    obtain ⟨k0, w⟩ := hd
    by_cases h0 : k0 = k
    · subst h0
      simp [dinsert, dlookup, h]
    · simp [dinsert, h0, dlookup, ih]

theorem dinsert_of_dlookup {α : Type} (m : List (String × α)) (k : String) (v : α)
    (h : dlookup m k = some v) : dinsert m k v = m := by
  induction m with
  | nil => simp [dlookup] at h
  | cons hd tl ih =>
    obtain ⟨k0, w⟩ := hd
    by_cases h0 : k0 = k
    · subst h0
      simp [dlookup] at h
      simp [dinsert, h]
    · simp [dlookup, h0] at h
      simp [dinsert, h0, ih h]

theorem dinsert_dinsert {α : Type} (m : List (String × α)) (k : String) (v w : α) :
    dinsert (dinsert m k v) k w = dinsert m k w := by
  induction m with
  | nil => simp [dinsert]
  | cons hd tl ih =>
    obtain ⟨k0, x⟩ := hd
    by_cases h0 : k0 = k
    · simp [dinsert, h0]
    · simp [dinsert, h0, ih]

theorem derase_dinsert_of_absent {α : Type} (m : List (String × α)) (k : String) (v : α)
    (h : dlookup m k = none) : derase (dinsert m k v) k = m := by
  induction m with
  | nil => simp [dinsert, derase]
  | cons hd tl ih =>
    obtain ⟨k0, w⟩ := hd
    by_cases h0 : k0 = k
    · simp [dlookup, h0] at h
    · simp [dlookup, h0] at h
      simp [dinsert, h0, derase, ih h]

theorem dlookup_cons {α : Type} (k0 key : String) (v : α) (tl : List (String × α)) :
    dlookup ((k0, v) :: tl) key = if k0 = key then some v else dlookup tl key := rfl

theorem dinsert_cons {α : Type} (k0 key : String) (w v : α) (tl : List (String × α)) :
    dinsert ((k0, w) :: tl) key v =
      if k0 = key then (key, v) :: tl else (k0, w) :: dinsert tl key v := rfl

theorem derase_cons {α : Type} (k0 key : String) (w : α) (tl : List (String × α)) :
    derase ((k0, w) :: tl) key = if k0 = key then tl else (k0, w) :: derase tl key := rfl

theorem dkeys_cons {α : Type} (k0 : String) (w : α) (tl : List (String × α)) :
    dkeys ((k0, w) :: tl) = k0 :: dkeys tl := rfl

theorem dlookup_derase_ne {α : Type} (m : List (String × α)) (k k' : String)
    (h : k ≠ k') : dlookup (derase m k) k' = dlookup m k' := by
  induction m with
  | nil => simp [derase]
  | cons hd tl ih =>
    obtain ⟨k0, w⟩ := hd
    by_cases h0 : k0 = k
    · subst h0
      rw [derase_cons, if_pos rfl, dlookup_cons, if_neg h]
    · rw [derase_cons, if_neg h0, dlookup_cons, dlookup_cons, ih]

theorem mem_dkeys_dinsert {α : Type} (m : List (String × α)) (k x : String) (v : α) :
    x ∈ dkeys (dinsert m k v) ↔ x ∈ dkeys m ∨ x = k := by
  induction m with
  | nil => simp [dinsert, dkeys]
  | cons hd tl ih =>
    obtain ⟨k0, w⟩ := hd
    by_cases h0 : k0 = k
    · subst h0
      rw [dinsert_cons, if_pos rfl, dkeys_cons, dkeys_cons]
      simp only [List.mem_cons]
      tauto
    · rw [dinsert_cons, if_neg h0, dkeys_cons, dkeys_cons]
      simp only [List.mem_cons, ih]
      tauto

theorem nodup_dkeys_dinsert {α : Type} (m : List (String × α)) (k : String) (v : α)
    (h : (dkeys m).Nodup) : (dkeys (dinsert m k v)).Nodup := by
  induction m with
  | nil => simp [dinsert, dkeys]
  | cons hd tl ih =>
    obtain ⟨k0, w⟩ := hd
    rw [dkeys_cons, List.nodup_cons] at h
    by_cases h0 : k0 = k
    · subst h0
      rw [dinsert_cons, if_pos rfl, dkeys_cons, List.nodup_cons]
      exact h
    · have htl := ih h.2
      rw [dinsert_cons, if_neg h0, dkeys_cons, List.nodup_cons]
      refine ⟨?_, htl⟩
      intro hm
      rcases (mem_dkeys_dinsert tl k k0 v).mp hm with h1 | h1
      · exact h.1 h1
      · exact h0 h1

theorem dkeys_derase_sublist {α : Type} (m : List (String × α)) (k : String) :
    (dkeys (derase m k)).Sublist (dkeys m) := by
  induction m with
  | nil => simp [derase]
  | cons hd tl ih =>
    obtain ⟨k0, w⟩ := hd
    by_cases h0 : k0 = k
    · rw [derase_cons, if_pos h0, dkeys_cons]
      exact List.sublist_cons_self _ _
    · rw [derase_cons, if_neg h0, dkeys_cons, dkeys_cons]
      exact List.Sublist.cons₂ _ ih

theorem nodup_dkeys_derase {α : Type} (m : List (String × α)) (k : String)
    (h : (dkeys m).Nodup) : (dkeys (derase m k)).Nodup :=
  h.sublist (dkeys_derase_sublist m k)

theorem dlookup_mem_dkeys {α : Type} (m : List (String × α)) (k : String) (v : α)
    (h : dlookup m k = some v) : k ∈ dkeys m := by
  induction m with
  | nil => simp [dlookup] at h
  | cons hd tl ih =>
    obtain ⟨k0, w⟩ := hd
    by_cases h0 : k0 = k
    · subst h0
      rw [dkeys_cons]
      exact List.mem_cons_self _ _
    · rw [dlookup_cons, if_neg h0] at h
      rw [dkeys_cons]
      exact List.mem_cons_of_mem _ (ih h)

theorem dlookup_derase_self {α : Type} (m : List (String × α)) (k : String)
    (h : (dkeys m).Nodup) : dlookup (derase m k) k = none := by
  induction m with
  | nil => simp [derase, dlookup]
  | cons hd tl ih =>
    obtain ⟨k0, w⟩ := hd
    rw [dkeys_cons, List.nodup_cons] at h
    by_cases h0 : k0 = k
    · subst h0
      rw [derase_cons, if_pos rfl]
      cases htl : dlookup tl k0 with
      | none => rfl
      | some v => exact absurd (dlookup_mem_dkeys tl k0 v htl) h.1
    · rw [derase_cons, if_neg h0, dlookup_cons, if_neg h0]
      exact ih h.2

theorem dlookup_dinsert_map {α β : Type} (m : List (String × α)) (iid k : String)
    (conn conn' : α) (g : α → β)
    (hm : dlookup m iid = some conn) (hg : g conn' = g conn) :
    (dlookup (dinsert m iid conn') k).map g = (dlookup m k).map g := by
  by_cases h : iid = k
  · subst h
    rw [dlookup_dinsert_self, hm]
    simp [hg]
  · rw [dlookup_dinsert_ne _ _ _ _ h]

/-! ### Frame lemmas about the operations -/

theorem broadcast_event_jobs (st : BridgeState) (j : String) (e : Event)
    (f : Channel → Bool) : (broadcast_event st j e f).1.jobs = st.jobs := by
  cases h : dlookup st.event_subscribers j <;> simp [broadcast_event, h]

theorem broadcast_event_connections (st : BridgeState) (j : String) (e : Event)
    (f : Channel → Bool) :
    (broadcast_event st j e f).1.connections = st.connections := by
  cases h : dlookup st.event_subscribers j <;> simp [broadcast_event, h]

theorem broadcast_event_instance_tasks (st : BridgeState) (j : String) (e : Event)
    (f : Channel → Bool) :
    (broadcast_event st j e f).1.instance_tasks = st.instance_tasks := by
  cases h : dlookup st.event_subscribers j <;> simp [broadcast_event, h]

theorem broadcast_event_job_queues (st : BridgeState) (j : String) (e : Event)
    (f : Channel → Bool) :
    (broadcast_event st j e f).1.job_queues = st.job_queues := by
  cases h : dlookup st.event_subscribers j <;> simp [broadcast_event, h]

/-! ### Concrete fixtures -/

def c3_conn : VMConnection :=
  { instance_id := "w1"
    bridge_token := "t"
    user_id := 1
    connected_at := 0
    last_ping := 100
    status := "busy"
    current_task_id := some "j1" }

def c1_conn : VMConnection :=
  { instance_id := "w1"
    bridge_token := "t"
    user_id := 1
    connected_at := 0
    last_ping := 0
    status := "busy"
    current_task_id := some "j1" }

def c1_job : Job :=
  { id := "j1"
    user_id := 1
    task_prompt := "go to example.com"
    vm_id := some "w1"
    policy_profile := "default"
    status := JobStatus.running
    steps := []
    current_step := 0
    result := none
    artifacts := []
    error_message := none
    error_code := none
    created_at := 0
    started_at := some 0
    completed_at := none
    max_runtime_minutes := 30 }

def c1_state : BridgeState :=
  { connections := [("w1", c1_conn)]
    jobs := [("j1", c1_job)]
    job_queues := []
    event_subscribers := []
    instance_tasks := [("w1", "j1")] }

def c2_job : Job :=
  { id := "j2"
    user_id := 1
    task_prompt := "fill the form"
    vm_id := none
    policy_profile := "default"
    status := JobStatus.pending
    steps := []
    current_step := 0
    result := none
    artifacts := []
    error_message := none
    error_code := none
    created_at := 0
    started_at := none
    completed_at := none
    max_runtime_minutes := 30 }

def c2_empty : BridgeState :=
  { connections := []
    jobs := []
    job_queues := []
    event_subscribers := []
    instance_tasks := [] }

/-! ### Claims -/

/-- C1: the claim says a response to a `request_id` that is not outstanding
fails with a not-found error and sends no frame. The code keeps no
pending-gate registry at all: `submit_approval_response` and
`submit_context_response` scan `self.jobs` and forward the response to the
first job whose VM is connected, whatever the `request_id`. Here the request
id "r-unknown" was never registered by any `needs_approval`/`needs_context`
frame, yet both calls forward a frame to worker "w1", emit the
granted/provided event for job "j1", and return True. -/
theorem submit_responses_ignore_request_id :
    submit_approval_response c1_state "r-unknown" true none (fun _ => false) =
      (c1_state, true,
        [("w1", OutFrame.approval_response "r-unknown" true none)],
        [create_event EventType.approval_granted "j1"]) ∧
    submit_context_response c1_state "r-unknown" "ctx" [] (fun _ => false) =
      (c1_state, true,
        [("w1", OutFrame.context_response "r-unknown" "ctx" [])],
        [create_event EventType.context_provided "j1"]) := by
  constructor <;> rfl

/-- C2 counterexample: submitting a job with no worker connected makes
`submit_job` raise "No VM instances available" to the caller, refuting the
claim that submission does not fail. -/
theorem submit_job_no_worker_raises_concrete :
    (submit_job c2_empty c2_job none (fun _ => false)).2.1 =
      Except.error "No VM instances available" := rfl

/-- C2 amended: when no worker is online and idle and no preferred worker is
given, `submit_job` stores the job with status queued but then raises
"No VM instances available" to the caller; the stored job remains queued. -/
theorem submit_job_no_worker_queued_but_raises (st : BridgeState) (job : Job)
    (f : Channel → Bool) (h : find_available_instance st = none) :
    submit_job st job none f =
      ({ st with jobs := dinsert st.jobs job.id { job with status := JobStatus.queued } },
        Except.error "No VM instances available", []) ∧
    dlookup (submit_job st job none f).1.jobs job.id =
      some { job with status := JobStatus.queued } := by
  have hfa : find_available_instance
      { st with jobs := dinsert st.jobs job.id { job with status := JobStatus.queued } } =
        none := h
  have h1 : submit_job st job none f =
      ({ st with jobs := dinsert st.jobs job.id { job with status := JobStatus.queued } },
        Except.error "No VM instances available", []) := by
    unfold submit_job
    simp only [hfa]
  refine ⟨h1, ?_⟩
  rw [h1]
  exact dlookup_dinsert_self _ _ _

/-- C2 witness. -/
theorem submit_job_no_worker_witness :
    submit_job c2_empty c2_job none (fun _ => false) =
      ({ c2_empty with
          jobs := dinsert c2_empty.jobs c2_job.id { c2_job with status := JobStatus.queued } },
        Except.error "No VM instances available", []) ∧
    dlookup (submit_job c2_empty c2_job none (fun _ => false)).1.jobs c2_job.id =
      some { c2_job with status := JobStatus.queued } :=
  submit_job_no_worker_queued_but_raises c2_empty c2_job (fun _ => false) rfl

/-- C3: the claim (and spec §4.3) says a connection is alive when its status
is online **or busy** and the heartbeat is fresh. The code's `is_alive`
returns False for any status other than exactly "online": a busy connection
with a heartbeat 0 s old is reported dead (and the 30 s cleanup loop would
disconnect it and fail its running job). -/
theorem is_alive_false_for_fresh_busy_connection :
    c3_conn.is_alive 100 = false ∧ c3_conn.status = "busy" ∧
      100 - c3_conn.last_ping < 60 := by
  refine ⟨rfl, rfl, ?_⟩
  decide

/-- C10: `progress_percentage` is total: the empty-steps guard covers the
zero denominator, so the Python division can never raise ZeroDivisionError;
on a non-empty plan it returns completed-count / total * 100. -/
theorem progress_percentage_total_eq (j : Job) :
    j.progress_percentage =
      Except.ok (if j.steps = [] then 0 else
        ((j.steps.countP (fun s => s.status = "completed") : ℚ) /
          (j.steps.length : ℚ)) * 100) := by
  unfold Job.progress_percentage pydiv
  by_cases h : j.steps = []
  · simp [h]
  · have hl : (j.steps.length : ℚ) ≠ 0 := by
      have hp : 0 < j.steps.length := List.length_pos.mpr h
      exact_mod_cast Nat.pos_iff_ne_zero.mp hp
    simp [h, hl, Except.map]

theorem filter_ne_idem (s : List Channel) (ch : Channel) :
    (s.filter (fun c => c ≠ ch)).filter (fun c => c ≠ ch) =
      s.filter (fun c => c ≠ ch) := by
  apply List.filter_eq_self.mpr
  intro c hc
  exact (List.mem_filter.mp hc).2

theorem filter_ne_of_not_mem (s : List Channel) (ch : Channel) (h : ch ∉ s) :
    s.filter (fun c => c ≠ ch) = s := by
  apply List.filter_eq_self.mpr
  intro c hc
  simp only [ne_eq, decide_not, Bool.not_eq_true', decide_eq_false_iff_not]
  intro hce
  exact h (hce ▸ hc)

def c7_state : BridgeState :=
  { connections := []
    jobs := []
    job_queues := []
    event_subscribers := [("j1", [1, 2, 3])]
    instance_tasks := [] }

/-- C7: `_broadcast_event` delivers to exactly the subscribers whose send
succeeds, removes exactly the failing subscribers from the job's entry in
the registry (other jobs' entries untouched), never raises (it is a total
function into a defined pair), and leaves jobs and connections alone. -/
theorem broadcast_event_best_effort (st : BridgeState) (jobId : String)
    (e : Event) (fails : Channel → Bool) (subs : List Channel)
    (h : dlookup st.event_subscribers jobId = some subs) :
    (broadcast_event st jobId e fails).2 = subs.filter (fun ch => ¬ fails ch) ∧
    dlookup (broadcast_event st jobId e fails).1.event_subscribers jobId =
      some (subs.filter (fun ch => ¬ fails ch)) ∧
    (∀ j', j' ≠ jobId →
      dlookup (broadcast_event st jobId e fails).1.event_subscribers j' =
        dlookup st.event_subscribers j') ∧
    (broadcast_event st jobId e fails).1.jobs = st.jobs ∧
    (broadcast_event st jobId e fails).1.connections = st.connections := by
  unfold broadcast_event
  simp only [h]
  refine ⟨?_, ?_, ?_, ?_, ?_⟩
  · trivial
  · exact dlookup_dinsert_self _ _ _
  · intro j' hj'
    exact dlookup_dinsert_ne _ _ _ _ (fun hh => hj' hh.symm)
  · trivial
  · trivial

/-- C7 witness: three subscribers of which the second fails. -/
theorem broadcast_event_best_effort_witness :
    (broadcast_event c7_state "j1" (create_event EventType.log "j1")
        (fun ch => decide (ch = 2))).2 =
      [1, 2, 3].filter (fun ch => ¬ (fun ch => decide (ch = 2)) ch) ∧
    dlookup (broadcast_event c7_state "j1" (create_event EventType.log "j1")
        (fun ch => decide (ch = 2))).1.event_subscribers "j1" =
      some ([1, 2, 3].filter (fun ch => ¬ (fun ch => decide (ch = 2)) ch)) ∧
    (∀ j', j' ≠ "j1" →
      dlookup (broadcast_event c7_state "j1" (create_event EventType.log "j1")
          (fun ch => decide (ch = 2))).1.event_subscribers j' =
        dlookup c7_state.event_subscribers j') ∧
    (broadcast_event c7_state "j1" (create_event EventType.log "j1")
        (fun ch => decide (ch = 2))).1.jobs = c7_state.jobs ∧
    (broadcast_event c7_state "j1" (create_event EventType.log "j1")
        (fun ch => decide (ch = 2))).1.connections = c7_state.connections :=
  broadcast_event_best_effort c7_state "j1" (create_event EventType.log "j1")
    (fun ch => decide (ch = 2)) [1, 2, 3] rfl

def c9_state : BridgeState :=
  { connections := []
    jobs := []
    job_queues := []
    event_subscribers := [("ja", [5])]
    instance_tasks := [] }

/-- C9 counterexample: when the channel is already subscribed,
subscribe-then-unsubscribe does not restore the registry — it removes the
pre-existing subscription (here the whole entry), so the composite is not
the identity on every registry state. -/
theorem subscribe_unsubscribe_not_identity :
    unsubscribe_from_job (subscribe_to_job c9_state "ja" 5) "ja" 5 ≠ c9_state := by
  decide

/-- C9 amended: `subscribe_to_job` is idempotent on every state, and
`unsubscribe_from_job` is idempotent on every state whose registry has
distinct keys (as a Python dict always does); subscribe-then-unsubscribe
restores the initial registry provided the channel was not already
subscribed to that job and the job's stored subscriber set, if present, is
non-empty (the code never stores an empty set except transiently via
`_broadcast_event`). -/
theorem subscribe_unsubscribe_laws (st : BridgeState) (jobId : String) (ch : Channel)
    (h1 : ch ∉ (dlookup st.event_subscribers jobId).getD [])
    (h2 : dlookup st.event_subscribers jobId ≠ some []) :
    unsubscribe_from_job (subscribe_to_job st jobId ch) jobId ch = st ∧
    (∀ s : BridgeState, ∀ j : String, ∀ c : Channel,
      subscribe_to_job (subscribe_to_job s j c) j c = subscribe_to_job s j c) ∧
    (∀ s : BridgeState, ∀ j : String, ∀ c : Channel,
      (dkeys s.event_subscribers).Nodup →
      unsubscribe_from_job (unsubscribe_from_job s j c) j c =
        unsubscribe_from_job s j c) := by
  refine ⟨?_, ?_, ?_⟩
  · cases hs : dlookup st.event_subscribers jobId with
    | none =>
      have hsub : subscribe_to_job st jobId ch =
          { st with event_subscribers := dinsert st.event_subscribers jobId [ch] } := by
        simp [subscribe_to_job, hs]
      rw [hsub]
      have hl : dlookup (dinsert st.event_subscribers jobId [ch]) jobId = some [ch] :=
        dlookup_dinsert_self _ _ _
      simp [unsubscribe_from_job, hl, derase_dinsert_of_absent _ _ _ hs]
    | some s =>
      have hne : s ≠ [] := fun hh => h2 (by rw [hs, hh])
      have hch : ch ∉ s := by rw [hs] at h1; simpa using h1
      have hnall : ¬ ∀ a ∈ s, a = ch := by
        intro hall
        rcases s with _ | ⟨a, t⟩
        · exact hne rfl
        · have h' := hall a (List.mem_cons_self a t)
          simp [h'] at hch
      have hfs : s.filter (fun c => c ≠ ch) = s := filter_ne_of_not_mem s ch hch
      have hsub : subscribe_to_job st jobId ch =
          { st with event_subscribers :=
              dinsert st.event_subscribers jobId (s ++ [ch]) } := by
        simp [subscribe_to_job, hs, hch]
      rw [hsub]
      have hl : dlookup (dinsert st.event_subscribers jobId (s ++ [ch])) jobId =
          some (s ++ [ch]) := dlookup_dinsert_self _ _ _
      have hfs' := hfs
      simp only [ne_eq, decide_not] at hfs'
      simp [unsubscribe_from_job, hl, hfs, hfs', hne, hnall, dinsert_dinsert,
        dinsert_of_dlookup _ _ _ hs]
  · intro s j c
    cases hs : dlookup s.event_subscribers j with
    | none =>
      have hsub : subscribe_to_job s j c =
          { s with event_subscribers := dinsert s.event_subscribers j [c] } := by
        simp [subscribe_to_job, hs]
      rw [hsub]
      have hl : dlookup (dinsert s.event_subscribers j [c]) j = some [c] :=
        dlookup_dinsert_self _ _ _
      simp [subscribe_to_job, hl, dinsert_dinsert]
    | some subs0 =>
      by_cases hc : c ∈ subs0
      · have hsub : subscribe_to_job s j c =
            { s with event_subscribers := dinsert s.event_subscribers j subs0 } := by
          simp [subscribe_to_job, hs, hc]
        rw [hsub]
        have hl : dlookup (dinsert s.event_subscribers j subs0) j = some subs0 :=
          dlookup_dinsert_self _ _ _
        simp [subscribe_to_job, hl, hc, dinsert_dinsert]
      · have hsub : subscribe_to_job s j c =
            { s with event_subscribers :=
                dinsert s.event_subscribers j (subs0 ++ [c]) } := by
          simp [subscribe_to_job, hs, hc]
        rw [hsub]
        have hl : dlookup (dinsert s.event_subscribers j (subs0 ++ [c])) j =
            some (subs0 ++ [c]) := dlookup_dinsert_self _ _ _
        have hmem : c ∈ subs0 ++ [c] := by simp
        simp [subscribe_to_job, hl, hmem, dinsert_dinsert]
  · intro s j c hnds
    cases hs : dlookup s.event_subscribers j with
    | none =>
      have hunsub : unsubscribe_from_job s j c = s := by
        simp [unsubscribe_from_job, hs]
      rw [hunsub]
      exact hunsub
    | some subs0 =>
      by_cases hf : subs0.filter (fun x => x ≠ c) = []
      · have hfall : ∀ a ∈ subs0, a = c := by
          intro a ha
          have := List.filter_eq_nil_iff.mp hf a ha
          simpa using this
        have hunsub : unsubscribe_from_job s j c =
            { s with event_subscribers := derase s.event_subscribers j } := by
          simp [unsubscribe_from_job, hs, hf, hfall]
          intro x hx hxc
          exact absurd (hfall x hx) hxc
        rw [hunsub]
        have hnone : dlookup (derase s.event_subscribers j) j = none :=
          dlookup_derase_self _ _ hnds
        simp [unsubscribe_from_job, hnone]
      · have hnall : ¬ ∀ a ∈ subs0, a = c := by
          intro hall
          apply hf
          apply List.filter_eq_nil_iff.mpr
          intro a ha
          simp [hall a ha]
        have hfi : (subs0.filter (fun x => x ≠ c)).filter (fun x => x ≠ c) =
            subs0.filter (fun x => x ≠ c) := filter_ne_idem subs0 c
        have hunsub : unsubscribe_from_job s j c =
            { s with event_subscribers :=
                dinsert s.event_subscribers j (subs0.filter (fun x => x ≠ c)) } := by
          simp [unsubscribe_from_job, hs, hf]
          intro hall
          exact absurd hall hnall
        rw [hunsub]
        have hl : dlookup
            (dinsert s.event_subscribers j (subs0.filter (fun x => x ≠ c))) j =
            some (subs0.filter (fun x => x ≠ c)) := dlookup_dinsert_self _ _ _
        have hl' := hl
        have hfi' := hfi
        have hf' := hf
        simp only [ne_eq, decide_not] at hl' hfi' hf'
        simp [unsubscribe_from_job, hl, hl', hfi, hfi', hf, hf', hnall,
          dinsert_dinsert]

def c9w_state : BridgeState :=
  { connections := []
    jobs := []
    job_queues := []
    event_subscribers := [("ja", [1])]
    instance_tasks := [] }

/-- C9 witness: a fresh channel 2 on a registry holding channel 1. -/
theorem subscribe_unsubscribe_laws_witness :
    unsubscribe_from_job (subscribe_to_job c9w_state "ja" 2) "ja" 2 = c9w_state ∧
    (∀ s : BridgeState, ∀ j : String, ∀ c : Channel,
      subscribe_to_job (subscribe_to_job s j c) j c = subscribe_to_job s j c) ∧
    (∀ s : BridgeState, ∀ j : String, ∀ c : Channel,
      (dkeys s.event_subscribers).Nodup →
      unsubscribe_from_job (unsubscribe_from_job s j c) j c =
        unsubscribe_from_job s j c) :=
  subscribe_unsubscribe_laws c9w_state "ja" 2 (by decide) (by decide)

theorem handle_task_complete_last_ping (st : BridgeState) (iid tid : String)
    (res : TaskResult) (now : Nat) (f : Channel → Bool) (k : String) :
    (dlookup (handle_task_complete st iid tid res now f).1.connections k).map
        VMConnection.last_ping =
      (dlookup st.connections k).map VMConnection.last_ping := by
  cases hj : dlookup st.jobs tid with
  | none => simp [handle_task_complete, hj]
  | some job =>
    cases hct : dcontains st.instance_tasks iid
    all_goals cases hcon : dlookup st.connections iid with
    | none =>
      simp [handle_task_complete, hj, hct, hcon, broadcast_event_connections]
    | some conn =>
      simp [handle_task_complete, hj, hct, hcon, broadcast_event_connections]
      exact dlookup_dinsert_map _ _ _ _ _ _ hcon rfl

theorem handle_task_failed_last_ping (st : BridgeState) (iid tid : String)
    (err : TaskError) (now : Nat) (f : Channel → Bool) (k : String) :
    (dlookup (handle_task_failed st iid tid err now f).1.connections k).map
        VMConnection.last_ping =
      (dlookup st.connections k).map VMConnection.last_ping := by
  cases hj : dlookup st.jobs tid with
  | none => simp [handle_task_failed, hj]
  | some job =>
    cases hct : dcontains st.instance_tasks iid
    all_goals cases hcon : dlookup st.connections iid with
    | none =>
      simp [handle_task_failed, hj, hct, hcon, broadcast_event_connections]
    | some conn =>
      simp [handle_task_failed, hj, hct, hcon, broadcast_event_connections]
      exact dlookup_dinsert_map _ _ _ _ _ _ hcon rfl

def c6_conn : VMConnection :=
  { instance_id := "w1"
    bridge_token := "t"
    user_id := 1
    connected_at := 0
    last_ping := 0
    status := "busy"
    current_task_id := some "j1" }

def c6_state : BridgeState :=
  { connections := [("w1", c6_conn)]
    jobs := []
    job_queues := []
    event_subscribers := []
    instance_tasks := [] }

/-- C6 counterexample: processing an `event` frame at time 50 from a worker
whose `last_ping` is 0 leaves `last_ping` at 0; had any inbound frame
refreshed the heartbeat, it would now be 50. -/
theorem event_frame_does_not_refresh_heartbeat :
    (dlookup (process_vm_message c6_state "w1"
        (InFrame.event (create_event EventType.log "j1")) 50
        (fun _ => false)).1.connections "w1").map VMConnection.last_ping =
      some 0 ∧
    (dlookup (process_vm_message c6_state "w1"
        (InFrame.event (create_event EventType.log "j1")) 50
        (fun _ => false)).1.connections "w1").map VMConnection.last_ping ≠
      some 50 := by
  refine ⟨rfl, ?_⟩
  decide

/-- C6 amended: only a `pong` frame refreshes the connection's `last_ping`;
processing any other inbound frame leaves every connection's `last_ping`
unchanged (`_process_vm_message` updates it solely in its `pong` arm). -/
theorem last_ping_refreshed_only_by_pong (st : BridgeState) (iid : String)
    (frame : InFrame) (now : Nat) (f : Channel → Bool) (k : String) :
    (dlookup (process_vm_message st iid frame now f).1.connections k).map
        VMConnection.last_ping =
      if frame = InFrame.pong ∧ k = iid then
        (dlookup st.connections k).map (fun _ => now)
      else (dlookup st.connections k).map VMConnection.last_ping := by
  cases frame with
  | pong =>
    by_cases hk : k = iid
    · subst hk
      cases hcon : dlookup st.connections k with
      | none => simp [process_vm_message, hcon]
      | some conn =>
        simp [process_vm_message, hcon, dlookup_dinsert_self]
    · cases hcon : dlookup st.connections iid with
      | none => simp [process_vm_message, hcon, hk]
      | some conn =>
        simp only [process_vm_message, hcon]
        rw [dlookup_dinsert_ne _ _ _ _ (fun hh => hk hh.symm)]
        simp [hk]
  | event e =>
    simp [process_vm_message, broadcast_event_connections]
  | task_complete tid r =>
    simp only [process_vm_message]
    rw [handle_task_complete_last_ping]
    simp
  | task_failed tid err =>
    simp only [process_vm_message]
    rw [handle_task_failed_last_ping]
    simp
  | needs_approval rid jid =>
    simp [process_vm_message, handle_approval_request, broadcast_event_connections]
  | needs_context rid jid =>
    simp [process_vm_message, handle_context_request, broadcast_event_connections]
  | unknown t =>
    simp [process_vm_message]

theorem terminal_not_active (j : Job) (h : j.status.isTerminal = true) :
    j.is_active = false := by
  cases hs : j.status <;> simp [Job.is_active, JobStatus.isTerminal, hs] at h ⊢

theorem cancel_job_inactive (st : BridgeState) (jobId r : String) (now : Nat)
    (f : Channel → Bool)
    (h : ∀ job, dlookup st.jobs jobId = some job → job.is_active = false) :
    cancel_job st jobId r now f = (st, false, [], []) := by
  cases hj : dlookup st.jobs jobId with
  | none => simp [cancel_job, hj]
  | some job => simp [cancel_job, hj, h job hj]

theorem cancel_job_active_jobs (st : BridgeState) (jobId r : String) (now : Nat)
    (f : Channel → Bool) (job : Job)
    (hj : dlookup st.jobs jobId = some job) (ha : job.is_active = true) :
    (cancel_job st jobId r now f).1.jobs =
      dinsert st.jobs jobId
        { job with
          status := JobStatus.cancelled
          completed_at := some now } := by
  cases hvm : job.vm_id with
  | none => simp [cancel_job, hj, ha, hvm, broadcast_event_jobs]
  | some v =>
    cases hct : dcontains st.instance_tasks v
    all_goals cases hcv : dlookup st.connections v with
    | none => simp [cancel_job, hj, ha, hvm, hct, hcv, broadcast_event_jobs]
    | some conn => simp [cancel_job, hj, ha, hvm, hct, hcv, broadcast_event_jobs]

/-- C8: `cancel_job` is idempotent — after one call (with any reason, time
and subscriber behaviour), a second call observes a non-active job and
returns False, changing no job, connection, queue, subscriber or
reverse-index state and emitting nothing. -/
theorem cancel_job_idempotent (st : BridgeState) (jobId r1 r2 : String)
    (t1 t2 : Nat) (f1 f2 : Channel → Bool) :
    cancel_job (cancel_job st jobId r1 t1 f1).1 jobId r2 t2 f2 =
      ((cancel_job st jobId r1 t1 f1).1, false, [], []) := by
  apply cancel_job_inactive
  intro job' hj'
  cases hj : dlookup st.jobs jobId with
  | none =>
    have h0 : cancel_job st jobId r1 t1 f1 = (st, false, [], []) :=
      cancel_job_inactive st jobId r1 t1 f1
        (fun jb hh => absurd hh (by simp [hj]))
    rw [h0] at hj'
    have hj2 : dlookup st.jobs jobId = some job' := hj'
    rw [hj] at hj2
    cases hj2
  | some job =>
    by_cases ha : job.is_active = true
    · have hjobs := cancel_job_active_jobs st jobId r1 t1 f1 job hj ha
      rw [hjobs, dlookup_dinsert_self] at hj'
      cases hj'
      simp [Job.is_active]
    · have hb : job.is_active = false := by
        cases hbb : job.is_active
        · rfl
        · exact absurd hbb ha
      have h0 : cancel_job st jobId r1 t1 f1 = (st, false, [], []) :=
        cancel_job_inactive st jobId r1 t1 f1
          (fun jb hh => by rw [hj] at hh; cases hh; exact hb)
      rw [h0] at hj'
      have hj2 : dlookup st.jobs jobId = some job' := hj'
      rw [hj] at hj2
      cases hj2
      exact hb

theorem handle_task_complete_jobs (st : BridgeState) (iid tid : String)
    (res : TaskResult) (now : Nat) (f : Channel → Bool) (job : Job)
    (hj : dlookup st.jobs tid = some job) :
    (handle_task_complete st iid tid res now f).1.jobs =
      dinsert st.jobs tid
        { job with
          status := JobStatus.completed
          completed_at := some now
          result := res.result
          artifacts := res.artifacts } := by
  cases hct : dcontains st.instance_tasks iid
  all_goals cases hcon : dlookup st.connections iid with
  | none => simp [handle_task_complete, hj, hct, hcon, broadcast_event_jobs]
  | some conn => simp [handle_task_complete, hj, hct, hcon, broadcast_event_jobs]

theorem handle_task_failed_jobs (st : BridgeState) (iid tid : String)
    (err : TaskError) (now : Nat) (f : Channel → Bool) (job : Job)
    (hj : dlookup st.jobs tid = some job) :
    (handle_task_failed st iid tid err now f).1.jobs =
      dinsert st.jobs tid
        { job with
          status := JobStatus.failed
          completed_at := some now
          error_message := err.message
          error_code := err.code } := by
  cases hct : dcontains st.instance_tasks iid
  all_goals cases hcon : dlookup st.connections iid with
  | none => simp [handle_task_failed, hj, hct, hcon, broadcast_event_jobs]
  | some conn => simp [handle_task_failed, hj, hct, hcon, broadcast_event_jobs]

def c4_job : Job :=
  { id := "j1"
    user_id := 1
    task_prompt := "go"
    vm_id := some "w1"
    policy_profile := "default"
    status := JobStatus.cancelled
    steps := []
    current_step := 0
    result := none
    artifacts := []
    error_message := none
    error_code := none
    created_at := 0
    started_at := some 5
    completed_at := some 10
    max_runtime_minutes := 30 }

def c4_state : BridgeState :=
  { connections := []
    jobs := [("j1", c4_job)]
    job_queues := []
    event_subscribers := []
    instance_tasks := [] }

/-- C4 counterexample: job "j1" is already terminal (cancelled at t=10), yet
a later `task_complete` frame moves it to completed, overwrites `result`
and `completed_at` — the handler has no terminal-state guard. -/
theorem task_complete_overwrites_cancelled_job :
    c4_job.status = JobStatus.cancelled ∧
    (dlookup (handle_task_complete c4_state "w1" "j1"
        { result := some "done", artifacts := [] } 20
        (fun _ => false)).1.jobs "j1").map Job.status =
      some JobStatus.completed ∧
    (dlookup (handle_task_complete c4_state "w1" "j1"
        { result := some "done", artifacts := [] } 20
        (fun _ => false)).1.jobs "j1").map Job.completed_at =
      some (some 20) := by
  refine ⟨rfl, rfl, rfl⟩

/-- C4 amended: for a job in a terminal state, `cancel_job` makes no change
and returns False, but a subsequent `task_complete` (resp. `task_failed`)
frame naming that job is not ignored: it overwrites the job's status to
completed (resp. failed), its result/error fields, and `completed_at`. -/
theorem terminal_job_cancel_noop_handlers_overwrite
    (st : BridgeState) (iid jobId r : String) (now : Nat) (f : Channel → Bool)
    (res : TaskResult) (err : TaskError) (job : Job)
    (hj : dlookup st.jobs jobId = some job)
    (ht : job.status.isTerminal = true) :
    cancel_job st jobId r now f = (st, false, [], []) ∧
    dlookup (handle_task_complete st iid jobId res now f).1.jobs jobId =
      some { job with
        status := JobStatus.completed
        completed_at := some now
        result := res.result
        artifacts := res.artifacts } ∧
    dlookup (handle_task_failed st iid jobId err now f).1.jobs jobId =
      some { job with
        status := JobStatus.failed
        completed_at := some now
        error_message := err.message
        error_code := err.code } := by
  refine ⟨?_, ?_, ?_⟩
  · exact cancel_job_inactive _ _ _ _ _ (fun jb hh => by
      rw [hj] at hh
      cases hh
      exact terminal_not_active _ ht)
  · rw [handle_task_complete_jobs st iid jobId res now f job hj]
    exact dlookup_dinsert_self _ _ _
  · rw [handle_task_failed_jobs st iid jobId err now f job hj]
    exact dlookup_dinsert_self _ _ _

/-- C4 witness: the cancelled job "j1" of the counterexample state. -/
theorem terminal_job_handlers_witness :
    cancel_job c4_state "j1" "user" 20 (fun _ => false) =
      (c4_state, false, [], []) ∧
    dlookup (handle_task_complete c4_state "w1" "j1"
        { result := some "done", artifacts := [] } 20
        (fun _ => false)).1.jobs "j1" =
      some { c4_job with
        status := JobStatus.completed
        completed_at := some 20
        result := (some "done" : Option String)
        artifacts := ([] : List String) } ∧
    dlookup (handle_task_failed c4_state "w1" "j1"
        { message := some "boom", code := some "E1" } 20
        (fun _ => false)).1.jobs "j1" =
      some { c4_job with
        status := JobStatus.failed
        completed_at := some 20
        error_message := (some "boom" : Option String)
        error_code := (some "E1" : Option String) } :=
  terminal_job_cancel_noop_handlers_overwrite c4_state "w1" "j1" "user" 20
    (fun _ => false) { result := some "done", artifacts := [] }
    { message := some "boom", code := some "E1" } c4_job rfl rfl

theorem connect_vm_connections (st : BridgeState) (iid tok : String)
    (uid now : Nat) (f : Channel → Bool) :
    (connect_vm st iid tok uid now f).1.connections =
      dinsert
        (if dcontains st.connections iid then
          (disconnect_vm st iid now f).1.connections
        else st.connections) iid
        { instance_id := iid
          bridge_token := tok
          user_id := uid
          connected_at := now
          last_ping := now
          status := "online"
          current_task_id := none } := by
  by_cases hc : dcontains st.connections iid <;> simp [connect_vm, hc]

theorem connect_vm_jobs (st : BridgeState) (iid tok : String)
    (uid now : Nat) (f : Channel → Bool) :
    (connect_vm st iid tok uid now f).1.jobs =
      (if dcontains st.connections iid then (disconnect_vm st iid now f).1.jobs
        else st.jobs) := by
  by_cases hc : dcontains st.connections iid <;> simp [connect_vm, hc]

theorem disconnect_vm_connections (st : BridgeState) (iid : String) (now : Nat)
    (f : Channel → Bool) (hc : dcontains st.connections iid = true) :
    (disconnect_vm st iid now f).1.connections = derase st.connections iid := by
  cases htk : dlookup st.instance_tasks iid with
  | none => simp [disconnect_vm, hc, htk]
  | some taskId =>
    cases hjb : dlookup st.jobs taskId with
    | none => simp [disconnect_vm, hc, htk, hjb]
    | some job =>
      cases hact : job.is_active
      · simp [disconnect_vm, hc, htk, hjb, hact]
      · simp [disconnect_vm, hc, htk, hjb, hact, broadcast_event_connections]

theorem disconnect_vm_jobs_active (st : BridgeState) (iid : String) (now : Nat)
    (f : Channel → Bool) (taskId : String) (job : Job)
    (hc : dcontains st.connections iid = true)
    (htk : dlookup st.instance_tasks iid = some taskId)
    (hjb : dlookup st.jobs taskId = some job)
    (hact : job.is_active = true) :
    (disconnect_vm st iid now f).1.jobs =
      dinsert st.jobs taskId
        { job with
          status := JobStatus.failed
          error_message := some "VM disconnected unexpectedly"
          completed_at := some now } := by
  simp [disconnect_vm, hc, htk, hjb, hact, broadcast_event_jobs]

/-- C5: `connect_vm` on an instance id that is already connected first runs
`disconnect_vm`, which fails the old connection's active job with
"VM disconnected unexpectedly", before the new connection is registered;
the registry maps the id to the fresh connection and keeps at most one
connection per instance id (no-duplicate-keys is preserved). -/
theorem connect_vm_evicts_and_registers (st : BridgeState) (iid tok : String)
    (uid now : Nat) (f : Channel → Bool)
    (hnd : (dkeys st.connections).Nodup) :
    dlookup (connect_vm st iid tok uid now f).1.connections iid =
      some { instance_id := iid
             bridge_token := tok
             user_id := uid
             connected_at := now
             last_ping := now
             status := "online"
             current_task_id := none } ∧
    (dkeys (connect_vm st iid tok uid now f).1.connections).Nodup ∧
    (∀ oldConn taskId job,
      dlookup st.connections iid = some oldConn →
      dlookup st.instance_tasks iid = some taskId →
      dlookup st.jobs taskId = some job →
      job.is_active = true →
      dlookup (connect_vm st iid tok uid now f).1.jobs taskId =
        some { job with
          status := JobStatus.failed
          error_message := some "VM disconnected unexpectedly"
          completed_at := some now }) := by
  refine ⟨?_, ?_, ?_⟩
  · rw [connect_vm_connections]
    exact dlookup_dinsert_self _ _ _
  · rw [connect_vm_connections]
    by_cases hc : dcontains st.connections iid
    · rw [if_pos hc, disconnect_vm_connections st iid now f hc]
      exact nodup_dkeys_dinsert _ _ _ (nodup_dkeys_derase _ _ hnd)
    · rw [if_neg hc]
      exact nodup_dkeys_dinsert _ _ _ hnd
  · intro oldConn taskId job hconn htask hjob hact
    have hc : dcontains st.connections iid = true := by
      simp [dcontains, hconn]
    rw [connect_vm_jobs, if_pos hc,
      disconnect_vm_jobs_active st iid now f taskId job hc htask hjob hact]
    exact dlookup_dinsert_self _ _ _

def c5_conn : VMConnection :=
  { instance_id := "w1"
    bridge_token := "t1"
    user_id := 1
    connected_at := 0
    last_ping := 40
    status := "busy"
    current_task_id := some "j1" }

def c5_job : Job :=
  { id := "j1"
    user_id := 1
    task_prompt := "go"
    vm_id := some "w1"
    policy_profile := "default"
    status := JobStatus.running
    steps := []
    current_step := 0
    result := none
    artifacts := []
    error_message := none
    error_code := none
    created_at := 0
    started_at := some 5
    completed_at := none
    max_runtime_minutes := 30 }

def c5_state : BridgeState :=
  { connections := [("w1", c5_conn)]
    jobs := [("j1", c5_job)]
    job_queues := []
    event_subscribers := []
    instance_tasks := [("w1", "j1")] }

/-- C5 witness: a second socket presents the already-connected id "w1"
while its job "j1" is running. -/
theorem connect_vm_evicts_witness :
    dlookup (connect_vm c5_state "w1" "t2" 2 100 (fun _ => false)).1.connections
        "w1" =
      some { instance_id := "w1"
             bridge_token := "t2"
             user_id := 2
             connected_at := 100
             last_ping := 100
             status := "online"
             current_task_id := none } ∧
    (dkeys (connect_vm c5_state "w1" "t2" 2 100 (fun _ => false)).1.connections).Nodup ∧
    (∀ oldConn taskId job,
      dlookup c5_state.connections "w1" = some oldConn →
      dlookup c5_state.instance_tasks "w1" = some taskId →
      dlookup c5_state.jobs taskId = some job →
      job.is_active = true →
      dlookup (connect_vm c5_state "w1" "t2" 2 100 (fun _ => false)).1.jobs taskId =
        some { job with
          status := JobStatus.failed
          error_message := some "VM disconnected unexpectedly"
          completed_at := some 100 }) :=
  connect_vm_evicts_and_registers c5_state "w1" "t2" 2 100 (fun _ => false)
    (by decide)
